import Mathlib

/-!
Verification of the hwloc LevelZero discovery plugin
(`src/hwloc/topology-levelzero.c`).

The development shallowly embeds the plugin: the vendor API (Level Zero)
query results are inputs (`Option` encodes a failing query), `fprintf`
diagnostics become a list of messages, the process-wide `static int warned`
flag and the host topology are threaded state.
-/

namespace LevelZero

/-- ASCII lower-casing of one character, as C `tolower` does in the
default locale (used by `strcasecmp`). -/
def lowerChar (c : Char) : Char :=
  if 'A' ≤ c ∧ c ≤ 'Z' then Char.ofNat (c.toNat + 32) else c

/-- `strcasecmp(s, t) != 0`: the two strings differ under case-insensitive
(ASCII) comparison. -/
def strcasecmpNe (s t : String) : Bool :=
  s.data.map lowerChar != t.data.map lowerChar

/-- Decimal digit characters of `n`, most significant first, with explicit
fuel (any fuel `> n` suffices). Models `snprintf "%u"`. -/
def decCharsF : Nat → Nat → List Char
  | 0, _ => []
  | fuel+1, n =>
    if n < 10 then [Nat.digitChar n]
    else decCharsF fuel (n / 10) ++ [Nat.digitChar (n % 10)]

/-- Decimal rendering of a natural number, as `snprintf "%u"` produces. -/
def natDec (n : Nat) : String := ⟨decCharsF (n+1) n⟩

/-- Hexadecimal digit characters of `n`, most significant first. -/
def hexCharsF : Nat → Nat → List Char
  | 0, _ => []
  | fuel+1, n =>
    if n < 16 then [Nat.digitChar n]
    else hexCharsF fuel (n / 16) ++ [Nat.digitChar (n % 16)]

/-- Hexadecimal rendering of a natural number, as `snprintf "%lx"` produces. -/
def natHex (n : Nat) : String := ⟨hexCharsF (n+1) n⟩

theorem decCharsF_fuel_eq : ∀ n f₁ f₂, n < f₁ → n < f₂ →
    decCharsF f₁ n = decCharsF f₂ n := by
  intro n
  induction n using Nat.strong_induction_on with
  | _ n ih =>
    intro f₁ f₂ h₁ h₂
    match f₁, f₂ with
    | g+1, k+1 =>
      simp only [decCharsF]
      by_cases hn : n < 10
      · simp [hn]
      · have hd : n / 10 < n := Nat.div_lt_self (by omega) (by omega)
        simp only [if_neg hn]
        rw [ih (n/10) hd g (n/10+1) (by omega) (by omega),
            ih (n/10) hd k (n/10+1) (by omega) (by omega)]

theorem decCharsF_ne_nil : ∀ f n, n < f → decCharsF f n ≠ [] := by
  intro f n h
  match f with
  | g+1 =>
    simp only [decCharsF]
    by_cases hn : n < 10
    · simp [hn]
    · simp [hn]

theorem digitChar_inj_lt10 : ∀ m, m < 10 → ∀ n, n < 10 →
    Nat.digitChar m = Nat.digitChar n → m = n := by decide

theorem decChars_canon_inj : ∀ m n, decCharsF (m+1) m = decCharsF (n+1) n → m = n := by
  intro m
  induction m using Nat.strong_induction_on with
  | _ m ih =>
    intro n h
    by_cases hm : m < 10 <;> by_cases hn : n < 10
    · simp only [decCharsF, if_pos hm, if_pos hn] at h
      exact digitChar_inj_lt10 m hm n hn (List.cons.inj h).1
    · exfalso
      simp only [decCharsF, if_pos hm, if_neg hn] at h
      have hne := decCharsF_ne_nil n (n/10) (Nat.div_lt_self (by omega) (by omega))
      have hlen := congrArg List.length h
      simp only [List.length_append, List.length_cons, List.length_nil] at hlen
      have : (decCharsF n (n / 10)).length = 0 := by omega
      exact hne (List.length_eq_zero.mp this)
    · exfalso
      simp only [decCharsF, if_neg hm, if_pos hn] at h
      have hne := decCharsF_ne_nil m (m/10) (Nat.div_lt_self (by omega) (by omega))
      have hlen := congrArg List.length h
      simp only [List.length_append, List.length_cons, List.length_nil] at hlen
      have : (decCharsF m (m / 10)).length = 0 := by omega
      exact hne (List.length_eq_zero.mp this)
    · simp only [decCharsF, if_neg hm, if_neg hn] at h
      have hparts := List.append_inj' h (by simp)
      have hmod : m % 10 = n % 10 :=
        digitChar_inj_lt10 (m % 10) (Nat.mod_lt _ (by omega)) (n % 10)
          (Nat.mod_lt _ (by omega)) (List.cons.inj hparts.2).1
      have hdm : m / 10 < m := Nat.div_lt_self (by omega) (by omega)
      have hdn : n / 10 < n := Nat.div_lt_self (by omega) (by omega)
      have h1 : decCharsF (m/10+1) (m/10) = decCharsF (n/10+1) (n/10) := by
        rw [← decCharsF_fuel_eq (m/10) m (m/10+1) hdm (by omega),
            ← decCharsF_fuel_eq (n/10) n (n/10+1) hdn (by omega)]
        exact hparts.1
      have hdiv : m / 10 = n / 10 := ih (m/10) hdm (n/10) h1
      omega

theorem natDec_injective : Function.Injective natDec := by
  intro m n h
  exact decChars_canon_inj m n (congrArg String.data h)

example : natDec 0 = "0" := by decide
example : natDec 207 = "207" := by decide
example : natHex 255 = "ff" := by decide

theorem zeName_injective : Function.Injective (fun k => "ze" ++ natDec k) := by
  intro m n h
  have h' : ('z' :: 'e' :: decCharsF (m+1) m) = ('z' :: 'e' :: decCharsF (n+1) n) :=
    congrArg String.data h
  have h2 := (List.cons.inj h').2
  exact decChars_canon_inj m n (List.cons.inj h2).2

/-- If `a` and `b` differ at character index `i` (which `a` has), then no
extension of `a` on the right equals `b`. -/
theorem string_append_left_ne (a x b : String) (i : Nat) (hi : i < a.data.length)
    (hne : a.data[i]? ≠ b.data[i]?) : a ++ x ≠ b := by
  intro h
  apply hne
  have hd : (a ++ x).data = a.data ++ x.data := rfl
  have h' : a.data ++ x.data = b.data := by rw [← hd, h]
  rw [← h', List.getElem?_append_left hi]

/-! ### Data model: vendor-API query results -/

/-- `ze_device_properties_t`, the fields the plugin reads. -/
structure ZeDeviceProperties where
  type : Nat
  numSlices : Nat
  numSubslicesPerSlice : Nat
  numEUsPerSubslice : Nat
  numThreadsPerEU : Nat
deriving DecidableEq

/-- `zes_device_properties_t`, the fields the plugin reads (sysman
management properties). -/
structure ZesDeviceProperties where
  vendorName : String
  modelName : String
  brandName : String
  serialNumber : String
  boardNumber : String
deriving DecidableEq

/-- A PCI bus address: domain/bus/device/function. -/
structure PciAddress where
  domain : Nat
  bus : Nat
  dev : Nat
  func : Nat
deriving DecidableEq

/-- `zes_pci_properties_t`, the fields the plugin reads.
`maxBandwidth` is `int64_t` bytes/sec (may be ≤ 0 meaning unknown). -/
structure ZesPciProperties where
  address : PciAddress
  maxBandwidth : Int
deriving DecidableEq

/-- One `ze_command_queue_group_properties_t` entry. -/
structure CQGroupProps where
  numQueues : Nat
  flags : Nat
deriving DecidableEq

/-- One Level Zero device as seen through the vendor-API calls the plugin
makes. `none` encodes that the corresponding query fails
(`res != ZE_RESULT_SUCCESS`); for `cq` it also covers a zero group count
and a failed buffer allocation, which the code treats the same way. -/
structure Device where
  props : Option ZeDeviceProperties
  props2 : Option ZesDeviceProperties
  cq : Option (List CQGroupProps)
  pci : Option ZesPciProperties
deriving DecidableEq

/-! ### Diagnostics

Each `fprintf(stderr, ...)` call site becomes one constructor; `render`
gives the exact text printed. -/

inductive Msg
  | unexpectedDeviceType (code : Nat)
  | sysmanFailedSetLate
  | sysmanFailedDisabled
  | zeInitFailed (res : Int)
deriving DecidableEq

def Msg.render : Msg → String
  | unexpectedDeviceType code =>
      "hwloc/levelzero: unexpected device type " ++ natDec code ++ "\n"
  | sysmanFailedSetLate =>
      "hwloc/levelzero: zesDeviceGetProperties() failed (ZES_ENABLE_SYSMAN=1 set too late?).\n"
  | sysmanFailedDisabled =>
      "hwloc/levelzero: zesDeviceGetProperties() failed (ZES_ENABLE_SYSMAN=0).\n"
  | zeInitFailed res =>
      "Failed to initialize LevelZero in ze_init(): " ++ toString res ++ "\n"

/-! ### Property collection (`hwloc__levelzero_properties_get`) -/

def ZE_DEVICE_TYPE_GPU : Nat := 1
def ZE_DEVICE_TYPE_CPU : Nat := 2
def ZE_DEVICE_TYPE_FPGA : Nat := 3
def ZE_DEVICE_TYPE_MCA : Nat := 4
def ZE_DEVICE_TYPE_VPU : Nat := 5

/-- The `switch (prop.type)` of lines 33–43: the device-class string and
the diagnostic emitted for an unrecognized code (suppressed when
`hwloc_hide_errors()` is set). -/
def deviceTypeInfo (hideErrors : Bool) (t : Nat) : String × List Msg :=
  if t = ZE_DEVICE_TYPE_GPU then ("GPU", [])
  else if t = ZE_DEVICE_TYPE_CPU then ("CPU", [])
  else if t = ZE_DEVICE_TYPE_FPGA then ("FPGA", [])
  else if t = ZE_DEVICE_TYPE_MCA then ("MCA", [])
  else if t = ZE_DEVICE_TYPE_VPU then ("VPU", [])
  else ("Unknown", if hideErrors then [] else [Msg.unexpectedDeviceType t])

/-- Lines 25–53: the infos added when `zeDeviceGetProperties` succeeds
(none when it fails), plus any unexpected-type diagnostic. -/
def basicInfos (hideErrors : Bool) : Option ZeDeviceProperties →
    List (String × String) × List Msg
  | none => ([], [])
  | some prop =>
    let ti := deviceTypeInfo hideErrors prop.type
    ([("LevelZeroDeviceType", ti.1),
      ("LevelZeroDeviceNumSlices", natDec prop.numSlices),
      ("LevelZeroDeviceNumSubslicesPerSlice", natDec prop.numSubslicesPerSlice),
      ("LevelZeroDeviceNumEUsPerSubslice", natDec prop.numEUsPerSubslice),
      ("LevelZeroDeviceNumThreadsPerEU", natDec prop.numThreadsPerEU)], ti.2)

/-- Lines 58–69: the infos added when `zesDeviceGetProperties` succeeds.
Note: the source guards `LevelZeroModel` with
`strcasecmp(prop2.vendorName, "Unknown")` (line 62), i.e. with the vendor
name, not the model name; the embedding reproduces that. -/
def mgmtInfos (prop2 : ZesDeviceProperties) : List (String × String) :=
  (if strcasecmpNe prop2.vendorName "Unknown" then
    [("LevelZeroVendor", prop2.vendorName)] else []) ++
  (if strcasecmpNe prop2.vendorName "Unknown" then
    [("LevelZeroModel", prop2.modelName)] else []) ++
  (if strcasecmpNe prop2.brandName "Unknown" then
    [("LevelZeroBrand", prop2.brandName)] else []) ++
  (if strcasecmpNe prop2.serialNumber "Unknown" then
    [("LevelZeroSerialNumber", prop2.serialNumber)] else []) ++
  (if strcasecmpNe prop2.boardNumber "Unknown" then
    [("LevelZeroBoardNumber", prop2.boardNumber)] else [])

/-- Result of `hwloc__levelzero_properties_get`: the infos it adds to the
osdev (basic-query part and management-query part, in that order), the
new value of the `static int warned` flag, and the diagnostics emitted. -/
structure PropsResult where
  basic : List (String × String)
  mgmt : List (String × String)
  warned : Bool
  msgs : List Msg
deriving DecidableEq

/-- Lines 17–81 (`hwloc__levelzero_properties_get`). `warned` is the
process-wide `static int warned` on entry. -/
def hwloc__levelzero_properties_get (hideErrors : Bool) (dev : Device)
    (sysman_maybe_missing : Nat) (warned : Bool) : PropsResult :=
  let b := basicInfos hideErrors dev.props
  match dev.props2 with
  | some prop2 => ⟨b.1, mgmtInfos prop2, warned, b.2⟩
  | none =>
    if warned then ⟨b.1, [], warned, b.2⟩
    else
      let m : List Msg :=
        if sysman_maybe_missing = 1 ∧ ¬hideErrors then [Msg.sysmanFailedSetLate]
        else if sysman_maybe_missing = 2 ∧ ¬hideErrors then [Msg.sysmanFailedDisabled]
        else []
      ⟨b.1, [], true, b.2 ++ m⟩

/-- Lines 181–201: the command-queue-group infos. `none` covers a failed
or zero-count first query and a failed allocation or second query. -/
def cqInfos : Option (List CQGroupProps) → List (String × String)
  | none => []
  | some l =>
    if l.isEmpty then []
    else
      ("LevelZeroCQGroups", natDec l.length) ::
        l.enum.map (fun p =>
          ("LevelZeroCQGroup" ++ natDec p.1,
           natDec p.2.numQueues ++ "*0x" ++ natHex p.2.flags))

/-! ### Host-topology model -/

/-- Host-tree object types relevant here: `HWLOC_OBJ_PCI_DEVICE` versus
anything else a busid lookup might return. -/
inductive ObjType
  | PciDevice
  | Other
deriving DecidableEq

/-- A pre-existing host-tree node that a busid lookup may return.
`linkspeed` is `attr->pcidev.linkspeed`; the C stores a `float`, modelled
exactly over `ℚ`. -/
structure HostNode where
  busid : PciAddress
  type : ObjType
  linkspeed : Rat
deriving DecidableEq

/-- Modelled from the spec: the host framework's "tree lookup by PCI bus
4-tuple → returns a node reference or not-found"
(`hwloc_pci_find_parent_by_busid`, which lives outside this file's
source). Pre-existing nodes are a list; the lookup returns the index of
the first node with the given bus address, if any. -/
def hwloc_pci_find_parent_by_busid (nodes : List HostNode) (addr : PciAddress) :
    Option Nat :=
  nodes.findIdx? (fun n => decide (n.busid = addr))

/-- The parent under which a new node is inserted: a pre-existing
host-tree node (by index) or the tree root (`hwloc_get_root_obj`). -/
inductive Parent
  | root
  | node (idx : Nat)
deriving DecidableEq

/-- One inserted OS-device node (`hwloc_alloc_setup_object` +
`hwloc_insert_object_by_parent`). `infos` models the ordered
`hwloc_obj_add_info` key/value list. `linkspeed` models the
`attr.pcidev.linkspeed` union member, which the plugin never writes on
the new node (it only writes it on a pre-existing PCI parent). -/
structure OsDev where
  name : String
  subtype : String
  infos : List (String × String)
  parent : Parent
  linkspeed : Option Rat
deriving DecidableEq

/-! ### The discovery loop (`hwloc_levelzero_discover`) -/

/-- The mutable state of one discovery pass: the shared `zeidx` counter,
the pre-existing host nodes (whose linkspeed may be updated), the nodes
inserted so far, the process-wide `static int warned` flag, and the
diagnostics emitted so far. -/
structure DiscState where
  zeidx : Nat
  hostNodes : List HostNode
  inserted : List OsDev
  warned : Bool
  msgs : List Msg
deriving DecidableEq

/-- Lines 160–221: the body of the inner device loop for device `j` of
driver `i`: build the osdev, collect properties and queue groups, resolve
the parent via the PCI bus address (updating the parent's linkspeed when
it is a PCI device with positive reported bandwidth), insert, and advance
`zeidx`. -/
def processDevice (hideErrors : Bool) (smm : Nat) (i j : Nat) (dev : Device)
    (st : DiscState) : DiscState :=
  let pr := hwloc__levelzero_properties_get hideErrors dev smm st.warned
  let infos :=
    [("Backend", "LevelZero"),
     ("LevelZeroDriverIndex", natDec i),
     ("LevelZeroDriverDeviceIndex", natDec j)]
    ++ pr.basic ++ pr.mgmt ++ cqInfos dev.cq
  let pres : Parent × List HostNode :=
    match dev.pci with
    | none => (Parent.root, st.hostNodes)
    | some pci =>
      match hwloc_pci_find_parent_by_busid st.hostNodes pci.address with
      | none => (Parent.root, st.hostNodes)
      | some idx =>
        let hn :=
          match st.hostNodes[idx]? with
          | none => st.hostNodes
          | some n =>
            if n.type = ObjType.PciDevice ∧ pci.maxBandwidth > 0 then
              st.hostNodes.set idx
                { n with linkspeed := (pci.maxBandwidth : Rat) / 1000 / 1000 / 1000 }
            else st.hostNodes
        (Parent.node idx, hn)
  let osdev : OsDev :=
    { name := "ze" ++ natDec st.zeidx
      subtype := "LevelZero"
      infos := infos
      parent := pres.1
      linkspeed := none }
  { zeidx := st.zeidx + 1
    hostNodes := pres.2
    inserted := st.inserted ++ [osdev]
    warned := pr.warned
    msgs := st.msgs ++ pr.msgs }

/-- Lines 160–221: the inner loop over the devices of driver `i`,
starting at in-driver index `j`. -/
def runDevices (hideErrors : Bool) (smm : Nat) (i : Nat) :
    Nat → List Device → DiscState → DiscState
  | _, [], st => st
  | j, d :: rest, st =>
    runDevices hideErrors smm i (j+1) rest (processDevice hideErrors smm i j d st)

/-- Lines 142–224: the outer loop over drivers, starting at driver index
`i`. A driver whose device-count query fails, reports zero devices, or
whose device-list allocation/fill fails is `none` and is skipped
(`continue`). -/
def runDrivers (hideErrors : Bool) (smm : Nat) :
    Nat → List (Option (List Device)) → DiscState → DiscState
  | _, [], st => st
  | i, none :: rest, st => runDrivers hideErrors smm (i+1) rest st
  | i, some devs :: rest, st =>
    runDrivers hideErrors smm (i+1) rest (runDevices hideErrors smm i 0 devs st)

/-- C `atoi`: optional whitespace, optional sign, leading digits. -/
def atoiCore : List Char → Nat → Nat
  | [], acc => acc
  | c :: cs, acc =>
    if c.isDigit then atoiCore cs (acc * 10 + (c.toNat - 48)) else acc

def atoi (s : String) : Int :=
  match s.data.dropWhile Char.isWhitespace with
  | '-' :: rest => -(atoiCore rest 0 : Int)
  | '+' :: rest => (atoiCore rest 0 : Int)
  | cs => (atoiCore cs 0 : Int)

/-- Lines 111–118: the value of `sysman_maybe_missing` after the
environment negotiation, from `getenv("ZES_ENABLE_SYSMAN")`:
1 if the toggle was not set early, 2 if it was set but disabled,
0 otherwise. -/
def sysmanMaybeMissing : Option String → Nat
  | none => 1
  | some v => if atoi v = 0 then 2 else 0

/-- Lines 111–115: the value of the `ZES_ENABLE_SYSMAN` environment
variable after the stage's negotiation (`putenv("ZES_ENABLE_SYSMAN=1")`
when it was unset). -/
def envAfterNegotiation : Option String → Option String
  | none => some "1"
  | some v => some v

/-- The host-framework and vendor-API inputs of one
`hwloc_levelzero_discover` call. `none`/`false` encode failing calls. -/
structure Inputs where
  /-- the OS-device type filter is `HWLOC_TYPE_FILTER_KEEP_NONE` -/
  filterKeepNone : Bool
  /-- `getenv("ZES_ENABLE_SYSMAN")` at entry -/
  envZES : Option String
  /-- `hwloc_hide_errors()` -/
  hideErrors : Bool
  /-- `zeInit(0)` result; 0 is `ZE_RESULT_SUCCESS` -/
  zeInitRes : Int
  /-- first `zeDriverGet` (count query): `none` = failure, otherwise the
  per-driver device lists the pass will see -/
  driverList : Option (List (Option (List Device)))
  /-- `malloc` of the driver-handle array and second `zeDriverGet` both
  succeed -/
  driverFill : Bool
deriving DecidableEq

/-- The observable outcome of one `hwloc_levelzero_discover` call. -/
structure DiscResult where
  ret : Int
  inserted : List OsDev
  hostNodes : List HostNode
  warned : Bool
  msgs : List Msg
  envZES : Option String
deriving DecidableEq

/-- Lines 83–228 (`hwloc_levelzero_discover`). `hostNodes` is the host
tree's pre-existing PCI content, `warned` the process-wide flag at
entry. -/
def hwloc_levelzero_discover (inp : Inputs) (hostNodes : List HostNode)
    (warned : Bool) : DiscResult :=
  if inp.filterKeepNone then
    ⟨0, [], hostNodes, warned, [], inp.envZES⟩
  else
    let env := envAfterNegotiation inp.envZES
    let smm := sysmanMaybeMissing inp.envZES
    if inp.zeInitRes ≠ 0 then
      ⟨0, [], hostNodes, warned,
        if inp.hideErrors then [] else [Msg.zeInitFailed inp.zeInitRes], env⟩
    else
      match inp.driverList with
      | none => ⟨0, [], hostNodes, warned, [], env⟩
      | some drivers =>
        if drivers.isEmpty then ⟨0, [], hostNodes, warned, [], env⟩
        else if ¬inp.driverFill then ⟨0, [], hostNodes, warned, [], env⟩
        else
          let st := runDrivers inp.hideErrors smm 0 drivers ⟨0, hostNodes, [], warned, []⟩
          ⟨0, st.inserted, st.hostNodes, st.warned, st.msgs, env⟩

/-- The number of devices one pass enumerates: devices of drivers whose
device-list queries succeeded. -/
def deviceCount : List (Option (List Device)) → Nat
  | [] => 0
  | none :: rest => deviceCount rest
  | some l :: rest => l.length + deviceCount rest

/-- The number of nodes a `hwloc_levelzero_discover` call inserts,
as a function of its inputs. -/
def discoveredCount (inp : Inputs) : Nat :=
  if inp.filterKeepNone then 0
  else if inp.zeInitRes ≠ 0 then 0
  else
    match inp.driverList with
    | none => 0
    | some drivers =>
      if drivers.isEmpty then 0
      else if ¬inp.driverFill then 0
      else deviceCount drivers

/-! ### Basic facts about one device step -/

theorem processDevice_zeidx (h : Bool) (smm i j : Nat) (d : Device) (st : DiscState) :
    (processDevice h smm i j d st).zeidx = st.zeidx + 1 := rfl

theorem processDevice_warned (h : Bool) (smm i j : Nat) (d : Device) (st : DiscState) :
    (processDevice h smm i j d st).warned =
      (hwloc__levelzero_properties_get h d smm st.warned).warned := rfl

theorem processDevice_msgs (h : Bool) (smm i j : Nat) (d : Device) (st : DiscState) :
    (processDevice h smm i j d st).msgs =
      st.msgs ++ (hwloc__levelzero_properties_get h d smm st.warned).msgs := rfl

theorem processDevice_inserted (h : Bool) (smm i j : Nat) (d : Device) (st : DiscState) :
    ∃ o : OsDev,
      (processDevice h smm i j d st).inserted = st.inserted ++ [o] ∧
      o.name = "ze" ++ natDec st.zeidx ∧
      o.subtype = "LevelZero" ∧
      o.infos =
        [("Backend", "LevelZero"),
         ("LevelZeroDriverIndex", natDec i),
         ("LevelZeroDriverDeviceIndex", natDec j)]
        ++ (hwloc__levelzero_properties_get h d smm st.warned).basic
        ++ (hwloc__levelzero_properties_get h d smm st.warned).mgmt
        ++ cqInfos d.cq ∧
      o.linkspeed = none ∧
      o.parent =
        (match d.pci with
         | none => Parent.root
         | some pci =>
           match hwloc_pci_find_parent_by_busid st.hostNodes pci.address with
           | none => Parent.root
           | some idx => Parent.node idx) := by
  refine ⟨_, rfl, rfl, rfl, rfl, rfl, ?_⟩
  cases hp : d.pci with
  | none => simp [processDevice, hp]
  | some pci =>
    cases hf : hwloc_pci_find_parent_by_busid st.hostNodes pci.address with
    | none => simp [processDevice, hp, hf]
    | some idx => simp [processDevice, hp, hf]

/-! ### The shared `zeidx` counter and the inserted names -/

theorem runDevices_spec (h : Bool) (smm i : Nat) :
    ∀ (devs : List Device) (j : Nat) (st : DiscState),
      (runDevices h smm i j devs st).zeidx = st.zeidx + devs.length ∧
      (runDevices h smm i j devs st).inserted.map OsDev.name =
        st.inserted.map OsDev.name ++
          (List.range' st.zeidx devs.length).map (fun k => "ze" ++ natDec k) := by
  intro devs
  induction devs with
  | nil => intro j st; simp [runDevices]
  | cons d rest ih =>
    intro j st
    obtain ⟨o, ho, hname, -, -, -, -⟩ := processDevice_inserted h smm i j d st
    constructor
    · rw [runDevices, (ih (j+1) _).1, processDevice_zeidx]
      simp [Nat.add_assoc, Nat.add_comm 1 rest.length]
    · rw [runDevices, (ih (j+1) _).2, processDevice_zeidx, ho]
      simp only [List.length_cons, List.range'_succ, List.map_append, List.map_cons,
        List.map_nil, List.append_assoc, List.singleton_append, List.nil_append]
      simp [hname]

theorem runDrivers_spec (h : Bool) (smm : Nat) :
    ∀ (drs : List (Option (List Device))) (i : Nat) (st : DiscState),
      (runDrivers h smm i drs st).zeidx = st.zeidx + deviceCount drs ∧
      (runDrivers h smm i drs st).inserted.map OsDev.name =
        st.inserted.map OsDev.name ++
          (List.range' st.zeidx (deviceCount drs)).map (fun k => "ze" ++ natDec k) := by
  intro drs
  induction drs with
  | nil => intro i st; simp [runDrivers, deviceCount]
  | cons dr rest ih =>
    intro i st
    cases dr with
    | none =>
      rw [runDrivers]
      exact ⟨(ih (i+1) st).1, (ih (i+1) st).2⟩
    | some devs =>
      have hd := runDevices_spec h smm i devs 0 st
      constructor
      · rw [runDrivers, (ih (i+1) _).1, hd.1]
        simp [deviceCount, Nat.add_assoc]
      · rw [runDrivers, (ih (i+1) _).2, hd.2, hd.1]
        rw [List.append_assoc, ← List.map_append, List.range'_append_1]
        simp [deviceCount, Nat.add_comm]

/-! ### The one-time sysman-failure diagnostic -/

/-- Is this message one of the two degraded-mode diagnostics of the
`zesDeviceGetProperties` failure path (lines 73–76)? -/
def isSysmanMsg : Msg → Bool
  | .sysmanFailedSetLate => true
  | .sysmanFailedDisabled => true
  | _ => false

/-- How many degraded-mode diagnostics a message list holds. -/
def sysmanMsgCount (msgs : List Msg) : Nat := (msgs.filter isSysmanMsg).length

theorem sysmanMsgCount_append (a b : List Msg) :
    sysmanMsgCount (a ++ b) = sysmanMsgCount a + sysmanMsgCount b := by
  simp [sysmanMsgCount, List.filter_append]

theorem basicInfos_msgs_sysman (h : Bool) (p : Option ZeDeviceProperties) :
    sysmanMsgCount (basicInfos h p).2 = 0 := by
  cases p with
  | none => rfl
  | some prop =>
    simp only [basicInfos, deviceTypeInfo]
    split_ifs <;> simp [sysmanMsgCount, List.filter, isSysmanMsg]

/-- lines 58–69 with a succeeding management query: basic infos plus the
management infos, `warned` unchanged, no new diagnostic. -/
theorem props_get_some (hide : Bool) (dev : Device) (smm : Nat) (w : Bool)
    (p2 : ZesDeviceProperties) (hp : dev.props2 = some p2) :
    hwloc__levelzero_properties_get hide dev smm w =
      ⟨(basicInfos hide dev.props).1, mgmtInfos p2, w, (basicInfos hide dev.props).2⟩ := by
  unfold hwloc__levelzero_properties_get; rw [hp]

/-- lines 70–80 with the flag already raised: silent. -/
theorem props_get_none_true (hide : Bool) (dev : Device) (smm : Nat)
    (hp : dev.props2 = none) :
    hwloc__levelzero_properties_get hide dev smm true =
      ⟨(basicInfos hide dev.props).1, [], true, (basicInfos hide dev.props).2⟩ := by
  unfold hwloc__levelzero_properties_get; rw [hp]; rfl

/-- lines 70–80 with the flag not yet raised: raise it and emit the
diagnostic selected by `sysman_maybe_missing` and `hwloc_hide_errors`. -/
theorem props_get_none_false (hide : Bool) (dev : Device) (smm : Nat)
    (hp : dev.props2 = none) :
    hwloc__levelzero_properties_get hide dev smm false =
      ⟨(basicInfos hide dev.props).1, [], true,
        (basicInfos hide dev.props).2 ++
          (if smm = 1 ∧ ¬hide then [Msg.sysmanFailedSetLate]
           else if smm = 2 ∧ ¬hide then [Msg.sysmanFailedDisabled] else [])⟩ := by
  unfold hwloc__levelzero_properties_get; rw [hp]; rfl

theorem sysmanMsgCount_extra (smm : Nat) (hide : Bool) :
    sysmanMsgCount (if smm = 1 ∧ ¬hide then [Msg.sysmanFailedSetLate]
      else if smm = 2 ∧ ¬hide then [Msg.sysmanFailedDisabled] else []) ≤ 1 := by
  split_ifs <;> decide

theorem processDevice_sysInv (hide : Bool) (smm i j : Nat) (d : Device) (st : DiscState)
    (hst : sysmanMsgCount st.msgs ≤ if st.warned then 1 else 0) :
    sysmanMsgCount (processDevice hide smm i j d st).msgs ≤
      if (processDevice hide smm i j d st).warned then 1 else 0 := by
  rw [processDevice_msgs, processDevice_warned, sysmanMsgCount_append]
  cases hp : d.props2 with
  | some p2 =>
    rw [props_get_some hide d smm st.warned p2 hp]
    simpa [basicInfos_msgs_sysman] using hst
  | none =>
    cases hw : st.warned with
    | true =>
      rw [hw] at hst
      simp at hst
      rw [props_get_none_true hide d smm hp]
      simpa [basicInfos_msgs_sysman] using hst
    | false =>
      rw [hw] at hst
      simp at hst
      rw [props_get_none_false hide d smm hp]
      have := sysmanMsgCount_extra smm hide
      simp [sysmanMsgCount_append, basicInfos_msgs_sysman, hst]
      simpa using this

theorem runDevices_sysInv (hide : Bool) (smm i : Nat) :
    ∀ (devs : List Device) (j : Nat) (st : DiscState),
      sysmanMsgCount st.msgs ≤ (if st.warned then 1 else 0) →
      sysmanMsgCount (runDevices hide smm i j devs st).msgs ≤
        if (runDevices hide smm i j devs st).warned then 1 else 0 := by
  intro devs
  induction devs with
  | nil => intro j st h; exact h
  | cons d rest ih =>
    intro j st h
    rw [runDevices]
    exact ih (j+1) _ (processDevice_sysInv hide smm i j d st h)

theorem runDrivers_sysInv (hide : Bool) (smm : Nat) :
    ∀ (drs : List (Option (List Device))) (i : Nat) (st : DiscState),
      sysmanMsgCount st.msgs ≤ (if st.warned then 1 else 0) →
      sysmanMsgCount (runDrivers hide smm i drs st).msgs ≤
        if (runDrivers hide smm i drs st).warned then 1 else 0 := by
  intro drs
  induction drs with
  | nil => intro i st h; exact h
  | cons dr rest ih =>
    intro i st h
    cases dr with
    | none => rw [runDrivers]; exact ih (i+1) st h
    | some devs =>
      rw [runDrivers]
      exact ih (i+1) _ (runDevices_sysInv hide smm i devs 0 st h)

/-! ### Which keys each info block can contribute -/

theorem mgmtInfos_keys (p2 : ZesDeviceProperties) (k v : String)
    (hmem : (k, v) ∈ mgmtInfos p2) :
    k = "LevelZeroVendor" ∨ k = "LevelZeroModel" ∨ k = "LevelZeroBrand" ∨
    k = "LevelZeroSerialNumber" ∨ k = "LevelZeroBoardNumber" := by
  simp only [mgmtInfos, List.mem_append] at hmem
  rcases hmem with ((((h | h) | h) | h) | h) <;>
    · split_ifs at h <;> simp_all

theorem cqInfos_keys (c : Option (List CQGroupProps)) (k v : String)
    (hmem : (k, v) ∈ cqInfos c) :
    k = "LevelZeroCQGroups" ∨ ∃ m : Nat, k = "LevelZeroCQGroup" ++ natDec m := by
  cases c with
  | none => simp [cqInfos] at hmem
  | some l =>
    simp only [cqInfos] at hmem
    split_ifs at hmem with hl
    · simp at hmem
    · rcases List.mem_cons.mp hmem with h1 | h2
      · left; exact congrArg Prod.fst h1
      · right
        rcases List.mem_map.mp h2 with ⟨p, -, hp⟩
        exact ⟨p.1, (congrArg Prod.fst hp).symm⟩

/-- A command-queue-group info key never collides with one of the five
basic-properties keys: the keys differ at character 9 (`C` vs `D`). -/
theorem cq_key_ne_basic (k : String)
    (hk : k = "LevelZeroCQGroups" ∨ ∃ m : Nat, k = "LevelZeroCQGroup" ++ natDec m) :
    k ≠ "LevelZeroDeviceType" ∧ k ≠ "LevelZeroDeviceNumSlices" ∧
    k ≠ "LevelZeroDeviceNumSubslicesPerSlice" ∧
    k ≠ "LevelZeroDeviceNumEUsPerSubslice" ∧
    k ≠ "LevelZeroDeviceNumThreadsPerEU" := by
  rcases hk with h | ⟨m, h⟩
  · subst h; refine ⟨by decide, by decide, by decide, by decide, by decide⟩
  · subst h
    refine ⟨?_, ?_, ?_, ?_, ?_⟩ <;>
      exact string_append_left_ne "LevelZeroCQGroup" (natDec m) _ 9 (by decide) (by decide)

/-! ### Claims -/

/-- C1: the claim says each of the five management attributes is recorded
iff its own value differs case-insensitively from "Unknown", and in
particular that the model-name attribute is gated by the model-name
value. The code (line 62) gates `LevelZeroModel` on `vendorName` instead:
with vendor "Unknown" and model "Arctic Sound" the model attribute is
dropped although the model value is not "Unknown", and with vendor
"Intel" and model "Unknown" the literal value "Unknown" is recorded. -/
theorem C1_model_gate_uses_vendor_name :
    (strcasecmpNe "Arctic Sound" "Unknown" = true ∧
      mgmtInfos ⟨"Unknown", "Arctic Sound", "Unknown", "Unknown", "Unknown"⟩ = []) ∧
    (strcasecmpNe "Unknown" "Unknown" = false ∧
      mgmtInfos ⟨"Intel", "Unknown", "Unknown", "Unknown", "Unknown"⟩ =
        [("LevelZeroVendor", "Intel"), ("LevelZeroModel", "Unknown")]) := by decide

/-- C2: every enumerated device yields exactly one appended node whose
parent is the busid-lookup result when the PCI query succeeds and the
lookup hits, and the root otherwise; and a full pass over the drivers
inserts exactly one node per enumerated device (none dropped). -/
theorem C2_parent_resolution :
    (∀ (h : Bool) (smm i j : Nat) (dev : Device) (st : DiscState),
      ∃ o : OsDev,
        (processDevice h smm i j dev st).inserted = st.inserted ++ [o] ∧
        o.parent =
          (match dev.pci with
           | none => Parent.root
           | some pci =>
             match hwloc_pci_find_parent_by_busid st.hostNodes pci.address with
             | none => Parent.root
             | some idx => Parent.node idx))
    ∧ (∀ (h : Bool) (smm : Nat) (drs : List (Option (List Device))) (i : Nat) (st : DiscState),
        (runDrivers h smm i drs st).inserted.length =
          st.inserted.length + deviceCount drs) := by
  constructor
  · intro h smm i j dev st
    obtain ⟨o, ho, -, -, -, -, hp⟩ := processDevice_inserted h smm i j dev st
    exact ⟨o, ho, hp⟩
  · intro h smm drs i st
    have hlen := congrArg List.length (runDrivers_spec h smm drs i st).2
    simpa using hlen

/-- C3: the names of the nodes a pass inserts are "ze" followed by
consecutive values of the single `zeidx` counter, shared across drivers
(the driver loop keeps extending the same arithmetic progression), and
a whole `hwloc_levelzero_discover` call names its nodes `ze0, ze1, …`
in enumeration order, all distinct. -/
theorem C3_names_globally_sequential :
    (∀ (h : Bool) (smm : Nat) (drs : List (Option (List Device))) (i : Nat) (st : DiscState),
      (runDrivers h smm i drs st).inserted.map OsDev.name =
        st.inserted.map OsDev.name ++
          (List.range' st.zeidx (deviceCount drs)).map (fun k => "ze" ++ natDec k))
    ∧ (∀ (inp : Inputs) (hostNodes : List HostNode) (warned : Bool),
        (hwloc_levelzero_discover inp hostNodes warned).inserted.map OsDev.name =
          (List.range' 0 (discoveredCount inp)).map (fun k => "ze" ++ natDec k)
        ∧ ((hwloc_levelzero_discover inp hostNodes warned).inserted.map OsDev.name).Nodup) := by
  constructor
  · intro h smm drs i st
    exact (runDrivers_spec h smm drs i st).2
  · intro inp hostNodes warned
    have hmain : (hwloc_levelzero_discover inp hostNodes warned).inserted.map OsDev.name =
        (List.range' 0 (discoveredCount inp)).map (fun k => "ze" ++ natDec k) := by
      by_cases h1 : inp.filterKeepNone
      · simp [hwloc_levelzero_discover, discoveredCount, h1]
      · by_cases h2 : inp.zeInitRes = 0
        · cases hdl : inp.driverList with
          | none => simp [hwloc_levelzero_discover, discoveredCount, h1, h2, hdl]
          | some drivers =>
            by_cases h3 : drivers.isEmpty
            · simp [hwloc_levelzero_discover, discoveredCount, h1, h2, hdl, h3]
            · by_cases h4 : inp.driverFill
              · have hr := (runDrivers_spec inp.hideErrors (sysmanMaybeMissing inp.envZES)
                  drivers 0 ⟨0, hostNodes, [], warned, []⟩).2
                simp only [hwloc_levelzero_discover, discoveredCount, h1, h2, hdl, h3, h4,
                  if_false, if_true, ite_false, ite_true, not_true, not_false_iff] at *
                simpa using hr
              · simp [hwloc_levelzero_discover, discoveredCount, h1, h2, hdl, h3, h4]
        · simp [hwloc_levelzero_discover, discoveredCount, h1, h2]
    refine ⟨hmain, ?_⟩
    rw [hmain]
    exact (List.nodup_range' 0 (discoveredCount inp)).map zeName_injective

theorem le_ite_one {n : Nat} {b : Bool} (h : n ≤ if b then 1 else 0) : n ≤ 1 := by
  cases b
  · simp at h; omega
  · simpa using h

theorem discover_sysman_le_one (inp : Inputs) (hostNodes : List HostNode) :
    sysmanMsgCount (hwloc_levelzero_discover inp hostNodes false).msgs ≤ 1 := by
  by_cases h1 : inp.filterKeepNone
  · simp [hwloc_levelzero_discover, h1, sysmanMsgCount]
  · by_cases h2 : inp.zeInitRes = 0
    · cases hdl : inp.driverList with
      | none => simp [hwloc_levelzero_discover, h1, h2, hdl, sysmanMsgCount]
      | some drivers =>
        by_cases h3 : drivers.isEmpty
        · simp [hwloc_levelzero_discover, h1, h2, hdl, h3, sysmanMsgCount]
        · by_cases h4 : inp.driverFill
          · have hinv := runDrivers_sysInv inp.hideErrors (sysmanMaybeMissing inp.envZES)
              drivers 0 ⟨0, hostNodes, [], false, []⟩ (by simp [sysmanMsgCount])
            have hle := le_ite_one hinv
            simp only [hwloc_levelzero_discover, h1, h2, hdl, h3, h4, if_false, if_true,
              ite_false, ite_true, not_true, not_false_iff] at *
            simpa using hle
          · simp [hwloc_levelzero_discover, h1, h2, hdl, h3, h4, sysmanMsgCount]
    · by_cases h5 : inp.hideErrors <;>
        simp [hwloc_levelzero_discover, h1, h2, h5, sysmanMsgCount, List.filter, isSysmanMsg]

theorem processDevice_sysAmort (hide : Bool) (smm i j : Nat) (d : Device) (st : DiscState) :
    sysmanMsgCount (processDevice hide smm i j d st).msgs +
      (if (processDevice hide smm i j d st).warned then 0 else 1) ≤
    sysmanMsgCount st.msgs + (if st.warned then 0 else 1) := by
  rw [processDevice_msgs, processDevice_warned, sysmanMsgCount_append]
  cases hp : d.props2 with
  | some p2 =>
    rw [props_get_some hide d smm st.warned p2 hp]
    simp [basicInfos_msgs_sysman]
  | none =>
    cases hw : st.warned
    · rw [props_get_none_false hide d smm hp]
      have := sysmanMsgCount_extra smm hide
      simp [sysmanMsgCount_append, basicInfos_msgs_sysman]
      simpa using this
    · rw [props_get_none_true hide d smm hp]
      simp [basicInfos_msgs_sysman]

theorem runDevices_sysAmort (hide : Bool) (smm i : Nat) :
    ∀ (devs : List Device) (j : Nat) (st : DiscState),
      sysmanMsgCount (runDevices hide smm i j devs st).msgs +
        (if (runDevices hide smm i j devs st).warned then 0 else 1) ≤
      sysmanMsgCount st.msgs + (if st.warned then 0 else 1) := by
  intro devs
  induction devs with
  | nil => intro j st; exact Nat.le_refl _
  | cons d rest ih =>
    intro j st
    rw [runDevices]
    exact Nat.le_trans (ih (j+1) _) (processDevice_sysAmort hide smm i j d st)

theorem runDrivers_sysAmort (hide : Bool) (smm : Nat) :
    ∀ (drs : List (Option (List Device))) (i : Nat) (st : DiscState),
      sysmanMsgCount (runDrivers hide smm i drs st).msgs +
        (if (runDrivers hide smm i drs st).warned then 0 else 1) ≤
      sysmanMsgCount st.msgs + (if st.warned then 0 else 1) := by
  intro drs
  induction drs with
  | nil => intro i st; exact Nat.le_refl _
  | cons dr rest ih =>
    intro i st
    cases dr with
    | none => rw [runDrivers]; exact ih (i+1) st
    | some devs =>
      rw [runDrivers]
      exact Nat.le_trans (ih (i+1) _) (runDevices_sysAmort hide smm i devs 0 st)

theorem discover_sysAmort (inp : Inputs) (hostNodes : List HostNode) (w : Bool) :
    sysmanMsgCount (hwloc_levelzero_discover inp hostNodes w).msgs +
      (if (hwloc_levelzero_discover inp hostNodes w).warned then 0 else 1) ≤
    if w then 0 else 1 := by
  by_cases h1 : inp.filterKeepNone
  · simp [hwloc_levelzero_discover, h1, sysmanMsgCount]
  · by_cases h2 : inp.zeInitRes = 0
    · cases hdl : inp.driverList with
      | none => simp [hwloc_levelzero_discover, h1, h2, hdl, sysmanMsgCount]
      | some drivers =>
        by_cases h3 : drivers.isEmpty
        · simp [hwloc_levelzero_discover, h1, h2, hdl, h3, sysmanMsgCount]
        · by_cases h4 : inp.driverFill
          · have hal := runDrivers_sysAmort inp.hideErrors (sysmanMaybeMissing inp.envZES)
              drivers 0 ⟨0, hostNodes, [], w, []⟩
            simp only [hwloc_levelzero_discover, h1, h2, hdl, h3, h4, if_false, if_true,
              ite_false, ite_true, not_true, not_false_iff] at *
            simpa [sysmanMsgCount] using hal
          · simp [hwloc_levelzero_discover, h1, h2, hdl, h3, h4, sysmanMsgCount]
    · by_cases h5 : inp.hideErrors <;>
        simp [hwloc_levelzero_discover, h1, h2, h5, sysmanMsgCount, List.filter, isSysmanMsg]

/-- Modelled from the spec: one process runs the discovery stage any
number of times, the process-wide `static int warned` flag surviving from
one invocation to the next; this counts all degraded-mode diagnostics the
process emits. -/
def processSysmanTotal : List (Inputs × List HostNode) → Bool → Nat
  | [], _ => 0
  | c :: rest, w =>
    sysmanMsgCount (hwloc_levelzero_discover c.1 c.2 w).msgs +
      processSysmanTotal rest (hwloc_levelzero_discover c.1 c.2 w).warned

theorem processSysmanTotal_le : ∀ (calls : List (Inputs × List HostNode)) (w : Bool),
    processSysmanTotal calls w ≤ if w then 0 else 1 := by
  intro calls
  induction calls with
  | nil => intro w; cases w <;> simp [processSysmanTotal]
  | cons c rest ih =>
    intro w
    have h1 := discover_sysAmort c.1 c.2 w
    have h2 := ih (hwloc_levelzero_discover c.1 c.2 w).warned
    simp only [processSysmanTotal]
    cases hwo : (hwloc_levelzero_discover c.1 c.2 w).warned <;>
      rw [hwo] at h1 h2 <;> cases w <;> simp at h1 h2 ⊢ <;> omega

/-- C4: the degraded-mode diagnostic of a failing management query is
emitted at most once per process: at most once within one discovery pass
that starts with the `static int warned` flag clear, however many devices
fail the query, and at most once in total over any sequence of passes
threading that flag. -/
theorem C4_diagnostic_at_most_once :
    (∀ (inp : Inputs) (hostNodes : List HostNode),
      sysmanMsgCount (hwloc_levelzero_discover inp hostNodes false).msgs ≤ 1)
    ∧ (∀ calls : List (Inputs × List HostNode), processSysmanTotal calls false ≤ 1) := by
  constructor
  · exact discover_sysman_le_one
  · intro calls
    simpa using processSysmanTotal_le calls false

/-- C5: a device whose management query fails still yields an inserted
node; its info list has an empty management segment but the full
basic-properties segment, so all five basic attributes are present. -/
theorem C5_mgmt_failure_keeps_basic (hide : Bool) (smm i j : Nat) (dev : Device)
    (st : DiscState) (p : ZeDeviceProperties)
    (h2 : dev.props2 = none) (h1 : dev.props = some p) :
    ∃ o : OsDev,
      (processDevice hide smm i j dev st).inserted = st.inserted ++ [o] ∧
      o.infos =
        [("Backend", "LevelZero"),
         ("LevelZeroDriverIndex", natDec i),
         ("LevelZeroDriverDeviceIndex", natDec j)]
        ++ (basicInfos hide dev.props).1 ++ [] ++ cqInfos dev.cq ∧
      ("LevelZeroDeviceType", (deviceTypeInfo hide p.type).1) ∈ o.infos ∧
      ("LevelZeroDeviceNumSlices", natDec p.numSlices) ∈ o.infos ∧
      ("LevelZeroDeviceNumSubslicesPerSlice", natDec p.numSubslicesPerSlice) ∈ o.infos ∧
      ("LevelZeroDeviceNumEUsPerSubslice", natDec p.numEUsPerSubslice) ∈ o.infos ∧
      ("LevelZeroDeviceNumThreadsPerEU", natDec p.numThreadsPerEU) ∈ o.infos := by
  obtain ⟨o, ho, -, -, hinfos, -, -⟩ := processDevice_inserted hide smm i j dev st
  have hm : (hwloc__levelzero_properties_get hide dev smm st.warned).mgmt = [] := by
    cases hw : st.warned
    · rw [props_get_none_false hide dev smm h2]
    · rw [props_get_none_true hide dev smm h2]
  have hb : (hwloc__levelzero_properties_get hide dev smm st.warned).basic =
      (basicInfos hide dev.props).1 := by
    cases hw : st.warned
    · rw [props_get_none_false hide dev smm h2]
    · rw [props_get_none_true hide dev smm h2]
  rw [hm, hb] at hinfos
  refine ⟨o, ho, hinfos, ?_, ?_, ?_, ?_, ?_⟩ <;>
    · rw [hinfos, h1]
      simp [basicInfos, List.mem_append]

/-- concrete device for the C5 witness: basic query succeeds (GPU),
management query fails -/
def devC5 : Device := ⟨some ⟨1, 6, 7, 8, 9⟩, none, none, none⟩

/-- initial state for witnesses: empty host tree, flag clear -/
def stEmpty : DiscState := ⟨0, [], [], false, []⟩

theorem C5_mgmt_failure_keeps_basic_witness :
    ∃ o : OsDev,
      (processDevice false 1 0 0 devC5 stEmpty).inserted = stEmpty.inserted ++ [o] ∧
      o.infos =
        [("Backend", "LevelZero"),
         ("LevelZeroDriverIndex", natDec 0),
         ("LevelZeroDriverDeviceIndex", natDec 0)]
        ++ (basicInfos false devC5.props).1 ++ [] ++ cqInfos devC5.cq ∧
      ("LevelZeroDeviceType", (deviceTypeInfo false 1).1) ∈ o.infos ∧
      ("LevelZeroDeviceNumSlices", natDec 6) ∈ o.infos ∧
      ("LevelZeroDeviceNumSubslicesPerSlice", natDec 7) ∈ o.infos ∧
      ("LevelZeroDeviceNumEUsPerSubslice", natDec 8) ∈ o.infos ∧
      ("LevelZeroDeviceNumThreadsPerEU", natDec 9) ∈ o.infos :=
  C5_mgmt_failure_keeps_basic false 1 0 0 devC5 stEmpty ⟨1, 6, 7, 8, 9⟩ rfl rfl

/-- C6: the environment negotiation has exactly the three recorded
states (unset → 1 and the variable is set to "1"; set-but-disabled → 2;
set-and-enabled → 0), and on a later management-query failure states 1
and 2 select diagnostics with different wording. -/
theorem C6_env_negotiation (v : String) (dev : Device) :
    sysmanMaybeMissing none = 1
    ∧ envAfterNegotiation none = some "1"
    ∧ (atoi v = 0 → sysmanMaybeMissing (some v) = 2)
    ∧ (atoi v ≠ 0 → sysmanMaybeMissing (some v) = 0)
    ∧ envAfterNegotiation (some v) = some v
    ∧ Msg.render Msg.sysmanFailedSetLate ≠ Msg.render Msg.sysmanFailedDisabled
    ∧ (dev.props2 = none →
        (hwloc__levelzero_properties_get false dev 1 false).msgs =
          (basicInfos false dev.props).2 ++ [Msg.sysmanFailedSetLate]
        ∧ (hwloc__levelzero_properties_get false dev 2 false).msgs =
          (basicInfos false dev.props).2 ++ [Msg.sysmanFailedDisabled]) := by
  refine ⟨rfl, rfl, ?_, ?_, rfl, by decide, ?_⟩
  · intro h; simp [sysmanMaybeMissing, h]
  · intro h; simp [sysmanMaybeMissing, h]
  · intro hp
    rw [props_get_none_false false dev 1 hp, props_get_none_false false dev 2 hp]
    constructor <;> simp

theorem C6_env_negotiation_witness :
    sysmanMaybeMissing (some "0") = 2
    ∧ sysmanMaybeMissing (some "1") = 0
    ∧ (hwloc__levelzero_properties_get false devC5 1 false).msgs = [Msg.sysmanFailedSetLate]
    ∧ (hwloc__levelzero_properties_get false devC5 2 false).msgs = [Msg.sysmanFailedDisabled] := by
  have h0 := C6_env_negotiation "0" devC5
  have h1 := C6_env_negotiation "1" devC5
  refine ⟨h0.2.2.1 (by decide), h1.2.2.2.1 (by decide), ?_, ?_⟩
  · rw [(h0.2.2.2.2.2.2 rfl).1]; decide
  · rw [(h0.2.2.2.2.2.2 rfl).2]; decide

theorem discover_ret (inp : Inputs) (hostNodes : List HostNode) (warned : Bool) :
    (hwloc_levelzero_discover inp hostNodes warned).ret = 0 := by
  by_cases h1 : inp.filterKeepNone
  · simp [hwloc_levelzero_discover, h1]
  · by_cases h2 : inp.zeInitRes = 0
    · cases hdl : inp.driverList with
      | none => simp [hwloc_levelzero_discover, h1, h2, hdl]
      | some drivers =>
        by_cases h3 : drivers.isEmpty
        · simp [hwloc_levelzero_discover, h1, h2, hdl, h3]
        · by_cases h4 : inp.driverFill
          · simp [hwloc_levelzero_discover, h1, h2, hdl, h3, h4]
          · simp [hwloc_levelzero_discover, h1, h2, hdl, h3, h4]
    · simp [hwloc_levelzero_discover, h1, h2]

/-- C7: the discovery entry point always returns 0; under each
disqualifying condition — type filter excluding OS devices, `zeInit`
failure, failing driver-count query, zero drivers — no node is created,
and the zero-drivers case emits no diagnostic. -/
theorem C7_disqualifying_conditions (inp : Inputs) (hostNodes : List HostNode) (warned : Bool) :
    (hwloc_levelzero_discover inp hostNodes warned).ret = 0
    ∧ (inp.filterKeepNone = true →
        (hwloc_levelzero_discover inp hostNodes warned).inserted = [] ∧
        (hwloc_levelzero_discover inp hostNodes warned).msgs = [])
    ∧ (inp.zeInitRes ≠ 0 →
        (hwloc_levelzero_discover inp hostNodes warned).inserted = [])
    ∧ (inp.driverList = none →
        (hwloc_levelzero_discover inp hostNodes warned).inserted = [])
    ∧ (inp.zeInitRes = 0 → inp.driverList = some [] →
        (hwloc_levelzero_discover inp hostNodes warned).inserted = [] ∧
        (hwloc_levelzero_discover inp hostNodes warned).msgs = []) := by
  refine ⟨discover_ret inp hostNodes warned, ?_, ?_, ?_, ?_⟩
  · intro ht
    simp [hwloc_levelzero_discover, ht]
  · intro hz
    by_cases h1 : inp.filterKeepNone
    · simp [hwloc_levelzero_discover, h1]
    · simp [hwloc_levelzero_discover, h1, hz]
  · intro hdl
    by_cases h1 : inp.filterKeepNone
    · simp [hwloc_levelzero_discover, h1]
    · by_cases h2 : inp.zeInitRes = 0
      · simp [hwloc_levelzero_discover, h1, h2, hdl]
      · simp [hwloc_levelzero_discover, h1, h2]
  · intro hz hdl
    by_cases h1 : inp.filterKeepNone
    · simp [hwloc_levelzero_discover, h1]
    · simp [hwloc_levelzero_discover, h1, hz, hdl]

/-- inputs for the C7 witness: filter keeps OS devices, toggle set to
"1", errors not hidden, `zeInit` succeeds, zero drivers reported -/
def inpZeroDrivers : Inputs := ⟨false, some "1", false, 0, some [], true⟩

theorem C7_disqualifying_conditions_witness :
    (hwloc_levelzero_discover inpZeroDrivers [] false).ret = 0
    ∧ (hwloc_levelzero_discover inpZeroDrivers [] false).inserted = []
    ∧ (hwloc_levelzero_discover inpZeroDrivers [] false).msgs = [] := by
  have h := C7_disqualifying_conditions inpZeroDrivers [] false
  exact ⟨h.1, (h.2.2.2.2 rfl rfl).1, (h.2.2.2.2 rfl rfl).2⟩

/-- C8: the device-type code is mapped by {GPU, CPU, FPGA, MCA, VPU}
to the same-named class string, any other code to "Unknown" plus one
warning unless error suppression is on, and an unrecognized code still
gets the full basic-attribute list recorded (the device is not
aborted). -/
theorem C8_device_type_mapping (hide : Bool) (t : Nat) (p : ZeDeviceProperties) :
    deviceTypeInfo hide ZE_DEVICE_TYPE_GPU = ("GPU", [])
    ∧ deviceTypeInfo hide ZE_DEVICE_TYPE_CPU = ("CPU", [])
    ∧ deviceTypeInfo hide ZE_DEVICE_TYPE_FPGA = ("FPGA", [])
    ∧ deviceTypeInfo hide ZE_DEVICE_TYPE_MCA = ("MCA", [])
    ∧ deviceTypeInfo hide ZE_DEVICE_TYPE_VPU = ("VPU", [])
    ∧ (t ≠ ZE_DEVICE_TYPE_GPU → t ≠ ZE_DEVICE_TYPE_CPU → t ≠ ZE_DEVICE_TYPE_FPGA →
       t ≠ ZE_DEVICE_TYPE_MCA → t ≠ ZE_DEVICE_TYPE_VPU →
       deviceTypeInfo hide t =
         ("Unknown", if hide then [] else [Msg.unexpectedDeviceType t]))
    ∧ (basicInfos hide (some p)).1 =
        [("LevelZeroDeviceType", (deviceTypeInfo hide p.type).1),
         ("LevelZeroDeviceNumSlices", natDec p.numSlices),
         ("LevelZeroDeviceNumSubslicesPerSlice", natDec p.numSubslicesPerSlice),
         ("LevelZeroDeviceNumEUsPerSubslice", natDec p.numEUsPerSubslice),
         ("LevelZeroDeviceNumThreadsPerEU", natDec p.numThreadsPerEU)] := by
  refine ⟨rfl, rfl, rfl, rfl, rfl, ?_, rfl⟩
  intro hg hc hf hm hv
  simp [deviceTypeInfo, hg, hc, hf, hm, hv]

theorem C8_device_type_mapping_witness :
    deviceTypeInfo false 99 = ("Unknown", [Msg.unexpectedDeviceType 99]) := by
  have h := (C8_device_type_mapping false 99 ⟨99, 0, 0, 0, 0⟩).2.2.2.2.2.1
    (by decide) (by decide) (by decide) (by decide) (by decide)
  simpa using h

/-- C9: the link-speed side effect: exactly when the PCI query succeeds,
the busid lookup hits a node of PCI-device type, and the reported
bandwidth is positive, that pre-existing node's linkspeed is set to
bandwidth/1000/1000/1000 (GB/s) and nothing else in the host tree
changes; in every other case the host tree is untouched; and the new
device node itself never carries a linkspeed. -/
theorem C9_linkspeed_frame (hide : Bool) (smm i j : Nat) (dev : Device) (st : DiscState) :
    (∀ pci idx n, dev.pci = some pci →
      hwloc_pci_find_parent_by_busid st.hostNodes pci.address = some idx →
      st.hostNodes[idx]? = some n →
      n.type = ObjType.PciDevice → pci.maxBandwidth > 0 →
      (processDevice hide smm i j dev st).hostNodes =
        st.hostNodes.set idx
          { n with linkspeed := (pci.maxBandwidth : Rat) / 1000 / 1000 / 1000 })
    ∧ (dev.pci = none → (processDevice hide smm i j dev st).hostNodes = st.hostNodes)
    ∧ (∀ pci, dev.pci = some pci →
        hwloc_pci_find_parent_by_busid st.hostNodes pci.address = none →
        (processDevice hide smm i j dev st).hostNodes = st.hostNodes)
    ∧ (∀ pci idx n, dev.pci = some pci →
        hwloc_pci_find_parent_by_busid st.hostNodes pci.address = some idx →
        st.hostNodes[idx]? = some n →
        ¬(n.type = ObjType.PciDevice ∧ pci.maxBandwidth > 0) →
        (processDevice hide smm i j dev st).hostNodes = st.hostNodes)
    ∧ (∃ o : OsDev, (processDevice hide smm i j dev st).inserted = st.inserted ++ [o] ∧
        o.linkspeed = none) := by
  refine ⟨?_, ?_, ?_, ?_, ?_⟩
  · intro pci idx n hpci hfind hget ht hbw
    simp [processDevice, hpci, hfind, hget, ht, hbw]
  · intro hpci
    simp [processDevice, hpci]
  · intro pci hpci hfind
    simp [processDevice, hpci, hfind]
  · intro pci idx n hpci hfind hget hcond
    simp [processDevice, hpci, hfind, hget, hcond]
  · obtain ⟨o, ho, -, -, -, hls, -⟩ := processDevice_inserted hide smm i j dev st
    exact ⟨o, ho, hls⟩

/-- pre-existing PCI node for the C9 witness -/
def hostPci : HostNode := ⟨⟨0, 3, 0, 0⟩, ObjType.PciDevice, 0⟩

/-- device for the C9 witness: only the PCI query succeeds, reporting
bus address 0000:03:00.0 and 8 GB/s -/
def devC9 : Device := ⟨none, none, none, some ⟨⟨0, 3, 0, 0⟩, 8000000000⟩⟩

/-- state for the C9 witness -/
def stC9 : DiscState := ⟨0, [hostPci], [], false, []⟩

theorem C9_linkspeed_frame_witness :
    (processDevice false 0 0 0 devC9 stC9).hostNodes =
      stC9.hostNodes.set 0
        { hostPci with linkspeed := ((8000000000 : Int) : Rat) / 1000 / 1000 / 1000 } :=
  (C9_linkspeed_frame false 0 0 0 devC9 stC9).1 ⟨⟨0, 3, 0, 0⟩, 8000000000⟩ 0 hostPci
    rfl rfl rfl rfl (by decide)

theorem props_get_basic_part (hide : Bool) (dev : Device) (smm : Nat) (w : Bool) :
    (hwloc__levelzero_properties_get hide dev smm w).basic =
      (basicInfos hide dev.props).1 := by
  cases hp : dev.props2 with
  | some p2 => rw [props_get_some hide dev smm w p2 hp]
  | none =>
    cases w
    · rw [props_get_none_false hide dev smm hp]
    · rw [props_get_none_true hide dev smm hp]

theorem props_get_mgmt_keys (hide : Bool) (dev : Device) (smm : Nat) (w : Bool)
    (k v : String)
    (hmem : (k, v) ∈ (hwloc__levelzero_properties_get hide dev smm w).mgmt) :
    k = "LevelZeroVendor" ∨ k = "LevelZeroModel" ∨ k = "LevelZeroBrand" ∨
    k = "LevelZeroSerialNumber" ∨ k = "LevelZeroBoardNumber" := by
  cases hp : dev.props2 with
  | some p2 =>
    rw [props_get_some hide dev smm w p2 hp] at hmem
    exact mgmtInfos_keys p2 k v hmem
  | none =>
    exfalso
    cases w
    · rw [props_get_none_false hide dev smm hp] at hmem; simp at hmem
    · rw [props_get_none_true hide dev smm hp] at hmem; simp at hmem

/-- C10: a device whose basic-properties query fails still yields an
inserted node with the backend tag, the "LevelZero" subtype and the two
index attributes, and no info entry carries any of the five
basic-properties keys. -/
theorem C10_basic_failure_node_still_created (hide : Bool) (smm i j : Nat) (dev : Device)
    (st : DiscState) (h1 : dev.props = none) :
    ∃ o : OsDev,
      (processDevice hide smm i j dev st).inserted = st.inserted ++ [o] ∧
      o.subtype = "LevelZero" ∧
      ("Backend", "LevelZero") ∈ o.infos ∧
      ("LevelZeroDriverIndex", natDec i) ∈ o.infos ∧
      ("LevelZeroDriverDeviceIndex", natDec j) ∈ o.infos ∧
      (∀ kv ∈ o.infos,
        kv.1 ≠ "LevelZeroDeviceType" ∧ kv.1 ≠ "LevelZeroDeviceNumSlices" ∧
        kv.1 ≠ "LevelZeroDeviceNumSubslicesPerSlice" ∧
        kv.1 ≠ "LevelZeroDeviceNumEUsPerSubslice" ∧
        kv.1 ≠ "LevelZeroDeviceNumThreadsPerEU") := by
  obtain ⟨o, ho, -, hsub, hinfos, -, -⟩ := processDevice_inserted hide smm i j dev st
  have hbasic : (hwloc__levelzero_properties_get hide dev smm st.warned).basic = [] := by
    rw [props_get_basic_part, h1]; rfl
  refine ⟨o, ho, hsub, ?_, ?_, ?_, ?_⟩
  · rw [hinfos]; simp
  · rw [hinfos]; simp
  · rw [hinfos]; simp
  · rintro ⟨k, v⟩ hmem
    show k ≠ "LevelZeroDeviceType" ∧ k ≠ "LevelZeroDeviceNumSlices" ∧
      k ≠ "LevelZeroDeviceNumSubslicesPerSlice" ∧
      k ≠ "LevelZeroDeviceNumEUsPerSubslice" ∧ k ≠ "LevelZeroDeviceNumThreadsPerEU"
    rw [hinfos, hbasic] at hmem
    simp only [List.append_nil, List.nil_append, List.mem_append, List.mem_cons,
      List.mem_singleton, List.not_mem_nil, or_false, false_or] at hmem
    rcases hmem with ((hkv | hkv | hkv) | hkv) | hkv
    · simp only [Prod.mk.injEq] at hkv
      rw [hkv.1]
      refine ⟨by decide, by decide, by decide, by decide, by decide⟩
    · simp only [Prod.mk.injEq] at hkv
      rw [hkv.1]
      refine ⟨by decide, by decide, by decide, by decide, by decide⟩
    · simp only [Prod.mk.injEq] at hkv
      rw [hkv.1]
      refine ⟨by decide, by decide, by decide, by decide, by decide⟩
    · rcases props_get_mgmt_keys hide dev smm st.warned k v hkv with h | h | h | h | h <;>
        · rw [h]
          refine ⟨by decide, by decide, by decide, by decide, by decide⟩
    · exact cq_key_ne_basic k (cqInfos_keys dev.cq k v hkv)

/-- device for the C10 witness: basic query fails, management query
succeeds, one queue group -/
def devC10 : Device := ⟨none, some ⟨"Intel", "Model X", "Brand", "S1", "B1"⟩,
  some [⟨4, 5⟩], none⟩

theorem C10_basic_failure_node_still_created_witness :
    ∃ o : OsDev,
      (processDevice false 0 0 0 devC10 stEmpty).inserted = stEmpty.inserted ++ [o] ∧
      o.subtype = "LevelZero" ∧
      ("Backend", "LevelZero") ∈ o.infos ∧
      ("LevelZeroDriverIndex", natDec 0) ∈ o.infos ∧
      ("LevelZeroDriverDeviceIndex", natDec 0) ∈ o.infos ∧
      (∀ kv ∈ o.infos,
        kv.1 ≠ "LevelZeroDeviceType" ∧ kv.1 ≠ "LevelZeroDeviceNumSlices" ∧
        kv.1 ≠ "LevelZeroDeviceNumSubslicesPerSlice" ∧
        kv.1 ≠ "LevelZeroDeviceNumEUsPerSubslice" ∧
        kv.1 ≠ "LevelZeroDeviceNumThreadsPerEU") :=
  C10_basic_failure_node_still_created false 0 0 0 devC10 stEmpty rfl

end LevelZero
